import Mathlib

/-!
Verification development for the persistent multiplexed terminal session
service (enhanced SSH server with tmux integration and SFTP support).

The definitions below are a shallow embedding of the TypeScript sources:

* `SSHService` (ssh.service): authentication handlers, shell-session
  resolution, the SFTP operation dispatcher, the stream-close handler and
  service shutdown;
* `TmuxService` (tmux.service): the multiplexer adapter, modelled at its
  interface boundary — the external tmux process is represented by an
  explicit server state (a list of sessions plus the set of ids whose
  state has been saved), `create` registers a session under the given id
  and name, `kill-session` fails when the target id is unknown (the
  external command exits non-zero), and `list-sessions` returns the
  sessions of that state;
* `ATCClient` (atc.client): the retrying event-relay connection logic,
  with the network abstracted as a predicate giving the outcome of each
  connection attempt.

Node `Buffer`s are modelled as lists of byte values (`List Nat`), with
`writeInt32BE`/`readInt32BE` spelled out as arithmetic on those bytes.
Filesystem and descriptor effects are modelled by explicit state passing
over `OSState`; fallible calls return `Except`.
-/

/- SFTP status codes, exactly the `SFTP_STATUS` constant of the source. -/
namespace SFTP_STATUS

def OK : Nat := 0

def EOF : Nat := 1

def NO_SUCH_FILE : Nat := 2

def PERMISSION_DENIED : Nat := 3

def FAILURE : Nat := 4

def BAD_MESSAGE : Nat := 5

def NO_CONNECTION : Nat := 6

def CONNECTION_LOST : Nat := 7

def OP_UNSUPPORTED : Nat := 8

end SFTP_STATUS

/- SFTP open-mode bit flags, exactly the `SFTP_OPEN_MODE` constant of the source. -/
namespace SFTP_OPEN_MODE

def READ : Nat := 0x00000001

def WRITE : Nat := 0x00000002

def APPEND : Nat := 0x00000004

def CREATE : Nat := 0x00000008

def TRUNCATE : Nat := 0x00000010

def EXCL : Nat := 0x00000020

end SFTP_OPEN_MODE

deriving instance DecidableEq for Except

/-- A Node `Buffer` is modelled as its list of byte values. -/
abbrev Buffer := List Nat

/-- `Buffer.alloc(4); buf.writeInt32BE(n, 0)` for a non-negative descriptor
number `n`: the four big-endian bytes of `n`. -/
def writeInt32BE (n : Nat) : Buffer :=
  [n / 16777216 % 256, n / 65536 % 256, n / 256 % 256, n % 256]

/-- `buf.readInt32BE(0)`: the signed 32-bit big-endian integer formed by the
first four bytes.  (`readInt32BE` throws on a buffer shorter than four bytes;
protocol handles are always at least four bytes, and byte access is modelled
with `getD`.) -/
def readInt32BE (b : Buffer) : Int :=
  let b0 := b.getD 0 0
  let v := b0 * 16777216 + b.getD 1 0 * 65536 + b.getD 2 0 * 256 + b.getD 3 0
  if 128 ≤ b0 then (v : Int) - 4294967296 else (v : Int)

/-- Kinds of errors the underlying filesystem calls can fail with. -/
inductive FsError where
  | ENOENT
  | EACCES
  | EBADF
  | EEXIST
  | ENOTEMPTY
deriving DecidableEq

/-- File attributes as produced for SFTP responses. -/
structure Attrs where
  mode : Nat
  uid : Nat
  gid : Nat
  size : Nat
  atime : Nat
  mtime : Nat
deriving DecidableEq

/-- One directory entry of a READDIR response. -/
structure DirEntry where
  filename : String
  longname : String
  attrs : Attrs
deriving DecidableEq

/-- The single terminal response an SFTP request handler sends. -/
inductive SftpOut where
  | status (code : Nat)
  | handle (h : Buffer)
  | data (d : Buffer)
  | name (entries : List DirEntry)
  | attrs (a : Attrs)
deriving DecidableEq

/-- The record `fs.stat` reports for a path: mode, numeric owner and
group ids, size, and access/modification times in milliseconds (Node
`Date.getTime()`). -/
structure Stats where
  mode : Nat
  uid : Nat
  gid : Nat
  size : Nat
  atimeMs : Nat
  mtimeMs : Nat
deriving DecidableEq

/-- State of the local OS as seen by the file operation dispatcher:
the table of open descriptors (descriptor number to path), the regular
files (path to byte contents), the directories (path to entries, each an
entry name with an is-directory flag), the stat metadata the OS holds
per path, and the paths on which access is denied. -/
structure OSState where
  fdTable : List (Nat × String) := []
  files : List (String × Buffer) := []
  dirs : List (String × List (String × Bool)) := []
  stats : List (String × Stats) := []
  noAccess : List String := []
deriving DecidableEq

/-- Look up an open descriptor (as the signed number decoded from a wire
handle) in the descriptor table. -/
def fdLookup (s : OSState) (fd : Int) : Option String :=
  match s.fdTable.find? (fun e => ((e.1 : Int) == fd)) with
  | some e => some e.2
  | none => none

/-- A descriptor number unused by the table (the OS returns a fresh one). -/
def freshFd (s : OSState) : Nat :=
  (s.fdTable.map Prod.fst).foldr max 2 + 1

/-- Contents of a path, empty when absent. -/
def fileContents (s : OSState) (p : String) : Buffer :=
  match s.files.find? (fun e => e.1 == p) with
  | some e => e.2
  | none => []

/-- Whether a regular file exists at `p`. -/
def fileExists (s : OSState) (p : String) : Bool :=
  (s.files.find? (fun e => e.1 == p)).isSome

/-- `fs.open(filename, fsFlags, cb)`.  Modes as used by the dispatcher:
`"r"` and `"r+"` require the file to exist, `"w"` creates or truncates it.
A path under access denial fails with `EACCES`; a missing path opened for
reading fails with `ENOENT`. -/
def osOpen (s : OSState) (filename : String) (fsFlags : String) :
    Except FsError (Nat × OSState) :=
  if s.noAccess.contains filename then .error .EACCES
  else if fsFlags == "w" then
    let fd := freshFd s
    .ok (fd, { s with
      fdTable := (fd, filename) :: s.fdTable,
      files := (filename, []) :: s.files.filter (fun e => e.1 != filename) })
  else if fileExists s filename then
    let fd := freshFd s
    .ok (fd, { s with fdTable := (fd, filename) :: s.fdTable })
  else .error .ENOENT

/-- `fs.read(fd, buffer, 0, length, offset, cb)`: an unknown descriptor
fails `EBADF`; otherwise up to `length` bytes from `offset`. -/
def osRead (s : OSState) (fd : Int) (offset length : Nat) :
    Except FsError Buffer :=
  match fdLookup s fd with
  | none => .error .EBADF
  | some p => .ok (((fileContents s p).drop offset).take length)

/-- `fs.write(fd, data, 0, data.length, offset, cb)`: an unknown descriptor
fails `EBADF`; otherwise the bytes are placed at `offset` (zero-filling any
gap past the current end). -/
def osWrite (s : OSState) (fd : Int) (offset : Nat) (data : Buffer) :
    Except FsError OSState :=
  match fdLookup s fd with
  | none => .error .EBADF
  | some p =>
    let old := fileContents s p
    let contents := old.take offset ++ List.replicate (offset - old.length) 0
      ++ data ++ old.drop (offset + data.length)
    .ok { s with files := (p, contents) :: s.files.filter (fun e => e.1 != p) }

/-- `fs.close(fd, cb)`: an unknown descriptor fails `EBADF`; otherwise the
descriptor is released (removed from the table). -/
def osClose (s : OSState) (fd : Int) : Except FsError OSState :=
  match fdLookup s fd with
  | none => .error .EBADF
  | some _ =>
    .ok { s with fdTable := s.fdTable.filter (fun e => !((e.1 : Int) == fd)) }

/-- `fs.unlink(path, cb)`: access denial fails `EACCES`, a missing path
fails `ENOENT`; otherwise the file is removed. -/
def osUnlink (s : OSState) (p : String) : Except FsError OSState :=
  if s.noAccess.contains p then .error .EACCES
  else if fileExists s p then
    .ok { s with files := s.files.filter (fun e => e.1 != p) }
  else .error .ENOENT

/-- Lookup of a directory's entries by path. -/
def dirLookup (s : OSState) (p : String) : Option (List (String × Bool)) :=
  match s.dirs.find? (fun e => e.1 == p) with
  | some e => some e.2
  | none => none

/-- `fs.mkdir(path, { recursive: true }, cb)`: access denial fails
`EACCES`, a regular file occupying the path fails; an already existing
directory is fine under `recursive`; otherwise the directory is created. -/
def osMkdir (s : OSState) (p : String) : Except FsError OSState :=
  if s.noAccess.contains p then .error .EACCES
  else if fileExists s p then .error .EEXIST
  else if (dirLookup s p).isSome then .ok s
  else .ok { s with dirs := (p, []) :: s.dirs }

/-- `fs.stat(path, cb)`: access denial fails `EACCES`; otherwise the stat
metadata the OS holds for the path, failing `ENOENT` when there is none. -/
def osStat (s : OSState) (p : String) : Except FsError Stats :=
  if s.noAccess.contains p then .error .EACCES
  else
    match s.stats.find? (fun e => e.1 == p) with
    | some e => .ok e.2
    | none => .error .ENOENT

/-- `fs.rmdir(path, cb)`: access denial fails `EACCES`, a missing
directory fails `ENOENT`, a non-empty one fails; otherwise the directory
is removed. -/
def osRmdir (s : OSState) (p : String) : Except FsError OSState :=
  if s.noAccess.contains p then .error .EACCES
  else
    match dirLookup s p with
    | none => .error .ENOENT
    | some entries =>
      if entries.isEmpty then
        .ok { s with dirs := s.dirs.filter (fun e => e.1 != p) }
      else .error .ENOTEMPTY

/-- `fs.rename(oldPath, newPath, cb)`: access denial on the source fails
`EACCES`, a missing source fails `ENOENT`; otherwise the file moves to the
new path. -/
def osRename (s : OSState) (oldPath newPath : String) : Except FsError OSState :=
  if s.noAccess.contains oldPath then .error .EACCES
  else if fileExists s oldPath then
    .ok { s with files :=
      (newPath, fileContents s oldPath)
        :: (s.files.filter (fun e => e.1 != oldPath)).filter (fun e => e.1 != newPath) }
  else .error .ENOENT

namespace SSHService

/-- The flag translation at the head of the OPEN handler:
`let fsFlags = 'r'; if (READ && WRITE) 'r+'; else if (WRITE) 'w'`. -/
def fsFlagsOf (flags : Nat) : String :=
  if flags &&& SFTP_OPEN_MODE.READ != 0 && flags &&& SFTP_OPEN_MODE.WRITE != 0 then "r+"
  else if flags &&& SFTP_OPEN_MODE.WRITE != 0 then "w"
  else "r"

/-- The OPEN handler: translate the flags, `fs.open`; any error answers
status `NO_SUCH_FILE`; success answers a 4-byte handle holding the
descriptor number big-endian (`handle.writeInt32BE(fd, 0)`). -/
def handleOPEN (s : OSState) (filename : String) (flags : Nat) :
    SftpOut × OSState :=
  match osOpen s filename (fsFlagsOf flags) with
  | .error _ => (.status SFTP_STATUS.NO_SUCH_FILE, s)
  | .ok (fd, s1) => (.handle (writeInt32BE fd), s1)

/-- The body of the READ handler once the descriptor is known. -/
def readAtFd (s : OSState) (fd : Int) (offset length : Nat) : SftpOut :=
  match osRead s fd offset length with
  | .error _ => .status SFTP_STATUS.FAILURE
  | .ok bytes =>
    if bytes.length == 0 then .status SFTP_STATUS.EOF
    else .data bytes

/-- The READ handler: `fs.read(handle.readInt32BE(0), ...)`; an error
answers status `FAILURE`; zero bytes read answers `EOF`; otherwise the
bytes are answered as data. -/
def handleREAD (s : OSState) (handle : Buffer) (offset length : Nat) : SftpOut :=
  readAtFd s (readInt32BE handle) offset length

/-- The body of the WRITE handler once the descriptor is known. -/
def writeAtFd (s : OSState) (fd : Int) (offset : Nat) (data : Buffer) :
    SftpOut × OSState :=
  match osWrite s fd offset data with
  | .error _ => (.status SFTP_STATUS.FAILURE, s)
  | .ok s1 => (.status SFTP_STATUS.OK, s1)

/-- The WRITE handler: `fs.write(handle.readInt32BE(0), data, ...)`; an
error answers status `FAILURE`, success answers `OK`. -/
def handleWRITE (s : OSState) (handle : Buffer) (offset : Nat) (data : Buffer) :
    SftpOut × OSState :=
  writeAtFd s (readInt32BE handle) offset data

/-- The body of the CLOSE handler once the descriptor is known. -/
def closeAtFd (s : OSState) (fd : Int) : SftpOut × OSState :=
  match osClose s fd with
  | .error _ => (.status SFTP_STATUS.FAILURE, s)
  | .ok s1 => (.status SFTP_STATUS.OK, s1)

/-- The CLOSE handler: `fs.close(handle.readInt32BE(0), ...)`; an error
answers status `FAILURE`, success answers `OK`. -/
def handleCLOSE (s : OSState) (handle : Buffer) : SftpOut × OSState :=
  closeAtFd s (readInt32BE handle)

/-- The REMOVE handler: `fs.unlink(path, ...)`; any error answers status
`NO_SUCH_FILE`, success answers `OK`. -/
def handleREMOVE (s : OSState) (p : String) : SftpOut × OSState :=
  match osUnlink s p with
  | .error _ => (.status SFTP_STATUS.NO_SUCH_FILE, s)
  | .ok s1 => (.status SFTP_STATUS.OK, s1)

/-- The MKDIR handler: `fs.mkdir(path, { recursive: true }, ...)`; any
error answers status `FAILURE`, success answers `OK`. -/
def handleMKDIR (s : OSState) (p : String) : SftpOut × OSState :=
  match osMkdir s p with
  | .error _ => (.status SFTP_STATUS.FAILURE, s)
  | .ok s1 => (.status SFTP_STATUS.OK, s1)

/-- The STAT handler: `fs.stat(path, ...)`; any error answers status
`NO_SUCH_FILE`; success answers the attribute record with mode, uid, gid
and size copied and the times floored to seconds. -/
def handleSTAT (s : OSState) (p : String) : SftpOut :=
  match osStat s p with
  | .error _ => .status SFTP_STATUS.NO_SUCH_FILE
  | .ok st =>
    .attrs { mode := st.mode, uid := st.uid, gid := st.gid, size := st.size,
             atime := st.atimeMs / 1000, mtime := st.mtimeMs / 1000 }

/-- The RMDIR handler: `fs.rmdir(path, ...)`; any error answers status
`NO_SUCH_FILE`, success answers `OK`. -/
def handleRMDIR (s : OSState) (p : String) : SftpOut × OSState :=
  match osRmdir s p with
  | .error _ => (.status SFTP_STATUS.NO_SUCH_FILE, s)
  | .ok s1 => (.status SFTP_STATUS.OK, s1)

/-- The RENAME handler: `fs.rename(oldPath, newPath, ...)`; any error
answers status `NO_SUCH_FILE`, success answers `OK`. -/
def handleRENAME (s : OSState) (oldPath newPath : String) : SftpOut × OSState :=
  match osRename s oldPath newPath with
  | .error _ => (.status SFTP_STATUS.NO_SUCH_FILE, s)
  | .ok s1 => (.status SFTP_STATUS.OK, s1)

end SSHService

namespace SSHService

/-- The entry synthesis of the READDIR handler: display name, an
`ls -l`-style long name, and fixed attributes depending only on whether
the entry is a directory. -/
def mkDirEntry (uid gid : Nat) (file : String × Bool) : DirEntry :=
  { filename := file.1,
    longname := (if file.2 then "d" else "-") ++ "rwxr-xr-x 1 " ++ toString uid
      ++ " " ++ toString gid ++ " 0 Jan 1 1970 " ++ file.1,
    attrs := {
      mode := if file.2 then 0o755 ||| 0o040000 else 0o644,
      uid := uid, gid := gid, size := 0, atime := 0, mtime := 0 } }

/-- The READDIR handler.  The source decodes the request handle's bytes into
a path string (`const path = handle.toString()`); we model the handler on
that decoded string.  `fs.readdir` failure answers `NO_SUCH_FILE`; an empty
listing answers `EOF`; otherwise the complete entry list is answered, with
uid/gid taken from `process.getuid`/`process.getgid` when available and `0`
otherwise.  The OS state is left untouched. -/
def handleREADDIR (s : OSState) (uidOpt gidOpt : Option Nat) (handlePath : String) :
    SftpOut × OSState :=
  match dirLookup s handlePath with
  | none => (.status SFTP_STATUS.NO_SUCH_FILE, s)
  | some files =>
    if files.length == 0 then (.status SFTP_STATUS.EOF, s)
    else
      let uid := uidOpt.getD 0
      let gid := gidOpt.getD 0
      (.name (files.map (mkDirEntry uid gid)), s)

end SSHService

/-- Whether `need` occurs at the head of `hay`. -/
def charsLeadsWith : List Char → List Char → Bool
  | _, [] => true
  | [], _ :: _ => false
  | a :: as, b :: bs => a == b && charsLeadsWith as bs

/-- Whether `need` occurs somewhere inside `hay`
(JavaScript `String.prototype.includes`). -/
def charsIncludes (need : List Char) : List Char → Bool
  | [] => need.isEmpty
  | a :: t => charsLeadsWith (a :: t) need || charsIncludes need t

/-- `haystack.includes(needle)` on strings. -/
def strIncludes (haystack needle : String) : Bool :=
  charsIncludes needle.data haystack.data

/-- Outcome of an authentication handler: `ctx.accept()`, or `ctx.reject(...)`
carrying the method list passed at the call site (`none` for a bare
`ctx.reject()`). -/
inductive AuthResult where
  | accept
  | reject (methodsLeft : Option (List String))
deriving DecidableEq

namespace SSHService

/-- `handlePublicKeyAuth`: read the authorized-keys file (a failed read is
caught and rejects); take the presented key's base64 data (possibly absent);
accept when the key string is truthy (non-empty) and `keys.includes(pubKey)`
holds, else reject with no argument. -/
def handlePublicKeyAuth (keysFile : Option String) (pubKey : Option String) :
    AuthResult :=
  match keysFile with
  | none => .reject none
  | some keys =>
    match pubKey with
    | none => .reject none
    | some k => if k != "" && strIncludes keys k then .accept else .reject none

/-- `handlePasswordAuth`: compare the presented secret against the
hardcoded placeholder secret; accept on match, else reject with no
argument. -/
def handlePasswordAuth (password : Option String) : AuthResult :=
  match password with
  | some p => if p == "your_secure_password" then .accept else .reject none
  | none => .reject none

/-- `handleAuth`: dispatch on the requested method; anything other than
`publickey` or `password` is rejected with the list of the two supported
methods. -/
def handleAuth (method : String) (keysFile : Option String)
    (pubKey : Option String) (password : Option String) : AuthResult :=
  if method == "publickey" then handlePublicKeyAuth keysFile pubKey
  else if method == "password" then handlePasswordAuth password
  else .reject (some ["password", "publickey"])

end SSHService

/-- A session of the external multiplexer as reported by the session
listing: its identifier and its name. -/
structure TmuxSession where
  id : String
  name : String
deriving DecidableEq

/-- State of the external multiplexer, modelled at the adapter interface:
the live sessions, and the ids whose state has been saved to the
resurrect directory. -/
structure TmuxState where
  sessions : List TmuxSession := []
  saved : List String := []
deriving DecidableEq

/-- The options record of `TmuxService.createSession`. -/
structure CreateOptions where
  name : Option String := none
  group : Option String := none
  layout : Option String := none
  persist : Bool := false
deriving DecidableEq

namespace TmuxService

/-- `getSocketPath(sessionId)`: the per-session socket file under the
fixed socket directory (the home directory is abstracted as `~`). -/
def getSocketPath (sessionId : String) : String :=
  "~/.tmux-sockets/" ++ sessionId ++ ".sock"

/-- `enablePersistence(sessionId)`: save the session's state via the
external save facility (`tmux-resurrect save`); modelled as recording the
id among the saved ones.  The live session list is untouched. -/
def enablePersistence (st : TmuxState) (sessionId : String) : TmuxState :=
  { st with saved := st.saved ++ [sessionId] }

/-- `createSession(sessionId, options)`: invoke external creation of a
detached session named `options.name || sessionId`; the external
multiplexer registers it under the given id.  When `options.persist` is
set, `enablePersistence` runs immediately afterwards. -/
def createSession (st : TmuxState) (sessionId : String) (options : CreateOptions) :
    TmuxState :=
  let named := options.name.getD sessionId
  let st1 := { st with sessions := st.sessions ++ [{ id := sessionId, name := named }] }
  if options.persist then enablePersistence st1 sessionId else st1

/-- `killSession(sessionId)`: invoke external destruction targeted at the
session; the external command exits non-zero when the id is unknown, which
`executeCommand` surfaces as a rejection. -/
def killSession (st : TmuxState) (sessionId : String) : Except String TmuxState :=
  if st.sessions.any (fun s => s.id == sessionId) then
    .ok { st with sessions := st.sessions.filter (fun s => !(s.id == sessionId)) }
  else .error "tmux kill-session failed: no such session"

/-- `listSessions()`: the sessions reported by the external multiplexer. -/
def listSessions (st : TmuxState) : List TmuxSession :=
  st.sessions

end TmuxService

/-- The per-session record the service keeps
(`sessions.set(sessionId, { shell, isTmux, clientInfo })`); the spawned
pty process is identified by a number. -/
structure SessionData where
  shellPid : Nat
  isTmux : Bool
  username : String
deriving DecidableEq

/-- State of the `SSHService`: the session map (keyed by the per-connection
session id), the multiplexer state, the live local relay (pty) processes,
a counter for fresh pids, and whether the event-relay connection is up. -/
structure SSHState where
  sessions : List (String × SessionData) := []
  tmux : TmuxState := {}
  ptys : List Nat := []
  nextPid : Nat := 1
  atcConnected : Bool := false
deriving DecidableEq

/-- One structured event sent to the event relay
(`atc.send({type, sessionId, data, metadata})`). -/
structure RelayMsg where
  type : String
  sessionId : String
  data : String
  username : String
  tmuxSession : String
deriving DecidableEq

namespace SSHService

/-- `handleShellSession(sessionId, stream, clientInfo)`: list the existing
multiplexer sessions and look for one whose name equals the authenticated
username; attach to it if found, otherwise create a new session with id
`username_Date.now()`, named after the username, in the `ssh-users` group,
with persistence enabled; then spawn the local relay pty attached to that
session and record the session data under the connection's session id.
Returns the new state and the bound multiplexer session identifier. -/
def handleShellSession (st : SSHState) (sessionId : String) (username : String)
    (now : Nat) : SSHState × String :=
  let existingSession :=
    (TmuxService.listSessions st.tmux).find? (fun s => s.name == username)
  let resolved :=
    match existingSession with
    | some s => (s.id, st.tmux)
    | none =>
      let tid := username ++ "_" ++ toString now
      (tid, TmuxService.createSession st.tmux tid
        { name := some username, group := some "ssh-users",
          layout := some "even-horizontal", persist := true })
  let pid := st.nextPid
  ({ st with
      tmux := resolved.2,
      ptys := pid :: st.ptys,
      nextPid := pid + 1,
      sessions := (sessionId,
        { shellPid := pid, isTmux := true, username := username }) :: st.sessions },
    resolved.1)

/-- Externally visible actions of teardown code: saving a multiplexer
session's state, killing the local relay pty, destroying a backing
multiplexer session. -/
inductive CloseAction where
  | save (sessionId : String)
  | killPty (pid : Nat)
  | killBacking (sessionId : String)
deriving DecidableEq

/-- The `stream.on('close')` handler of a shell channel: look the session
up; when it is a tmux-backed (persistent) session, first save its state via
`enablePersistence`, then kill the local relay pty and drop the session
entry.  The backing multiplexer session itself is left as-is.  The action
list records what happened, in order. -/
def onStreamClose (st : SSHState) (sessionId : String) (tmuxSessionId : String) :
    SSHState × List CloseAction :=
  match st.sessions.find? (fun e => e.1 == sessionId) with
  | none => (st, [])
  | some (_, sd) =>
    let saveStep :=
      if sd.isTmux then
        (TmuxService.enablePersistence st.tmux tmuxSessionId,
          [CloseAction.save tmuxSessionId])
      else (st.tmux, [])
    ({ st with
        tmux := saveStep.1,
        ptys := st.ptys.filter (fun p => !(p == sd.shellPid)),
        sessions := st.sessions.filter (fun e => !(e.1 == sessionId)) },
      saveStep.2 ++ [CloseAction.killPty sd.shellPid])

/-- The per-session body of `stop()`'s loop: for a tmux-backed session,
`killSession` is invoked with the *map key* (the per-connection session id);
its failure propagates.  Then the local pty is killed and the entry
dropped. -/
def stopAux (tmux : TmuxState) (ptys : List Nat) :
    List (String × SessionData) → Except String (TmuxState × List Nat)
  | [] => .ok (tmux, ptys)
  | (sid, sd) :: rest =>
    if sd.isTmux then
      match TmuxService.killSession tmux sid with
      | .error e => .error e
      | .ok tmux1 =>
        stopAux tmux1 (ptys.filter (fun p => !(p == sd.shellPid))) rest
    else stopAux tmux (ptys.filter (fun p => !(p == sd.shellPid))) rest

/-- `stop()`: kill every active session as above, then disconnect from the
relay and close the server; any `killSession` failure aborts the shutdown
with that error. -/
def stop (st : SSHState) : Except String SSHState :=
  match stopAux st.tmux st.ptys st.sessions with
  | .error e => .error e
  | .ok r =>
    .ok { st with sessions := [], tmux := r.1, ptys := r.2, atcConnected := false }

/-- The `shell.onData` callback: the pty output is always written to the
transport stream, and a structured terminal event is emitted towards the
event relay; its delivery happens only while the relay connection is up.
Returns the bytes written to the stream and the delivered relay messages. -/
def onShellData (atcConnected : Bool) (sessionId tmuxSessionId username : String)
    (data : String) : List String × List RelayMsg :=
  let msg : RelayMsg :=
    { type := "terminal", sessionId := sessionId, data := data,
      username := username, tmuxSession := tmuxSessionId }
  ([data], if atcConnected then [msg] else [])

end SSHService

namespace ATCClient

/-- `attemptConnect(attemptsLeft)` of `ATCClient.connect`: try the network
(`net i` is the outcome of the `i`-th attempt); on failure retry after the
fixed delay while attempts remain, else reject. -/
def attemptConnect (net : Nat → Bool) : Nat → Nat → Except String Unit
  | attemptsLeft, attemptIdx =>
    if net attemptIdx then .ok ()
    else
      match attemptsLeft with
      | 0 => .error "Failed to connect to ATC server after multiple attempts"
      | n + 1 => attemptConnect net n (attemptIdx + 1)

/-- Number of connection attempts `attemptConnect` performs. -/
def connectAttemptCount (net : Nat → Bool) : Nat → Nat → Nat
  | attemptsLeft, attemptIdx =>
    if net attemptIdx then 1
    else
      match attemptsLeft with
      | 0 => 1
      | n + 1 => 1 + connectAttemptCount net n (attemptIdx + 1)

/-- Total waiting time of `attemptConnect`: one fixed `delay` before each
retry (none before the first attempt). -/
def connectTotalDelay (net : Nat → Bool) (delay : Nat) (retries : Nat) : Nat :=
  delay * (connectAttemptCount net retries 0 - 1)

/-- `connect(retries, delay)`: start with `attemptConnect(retries)`. -/
def connect (retries : Nat) (net : Nat → Bool) : Except String Unit :=
  attemptConnect net retries 0

end ATCClient

namespace SSHService

/-- `start()`: bind the listener (its failure aborts startup), then try
`atc.connect(5, 2000)`; a connection failure is caught, logged and
startup continues without the relay. -/
def start (listenOk : Bool) (net : Nat → Bool) : Except String SSHState :=
  if listenOk then
    let r := ATCClient.connect 5 net
    .ok { sessions := [], tmux := {}, ptys := [], nextPid := 1,
          atcConnected := match r with | .ok _ => true | .error _ => false }
  else .error "listen failed"

end SSHService

/-- Split a character list at newline characters. -/
def splitNl : List Char → List (List Char)
  | [] => [[]]
  | c :: t =>
    let r := splitNl t
    if c == '\n' then [] :: r
    else
      match r with
      | [] => [[c]]
      | hd :: rest => (c :: hd) :: rest

/-- Spec-side reading of the authorized-keys list, for comparison with the
implementation: the file's entries, one per line. -/
def authorizedEntries (content : String) : List String :=
  (splitNl content.data).map fun cs => String.mk cs

/-- Finding nothing in the left part of an appended list defers to the
right part. -/
theorem find?_append_left_none {α : Type} (p : α → Bool) (l1 l2 : List α)
    (h : l1.find? p = none) : (l1 ++ l2).find? p = l2.find? p := by
  induction l1 with
  | nil => simp
  | cons a t ih =>
    rw [List.find?_cons] at h
    rcases hp : p a with _ | _
    · rw [List.cons_append, List.find?_cons, hp]
      exact ih (by rwa [hp] at h)
    · rw [hp] at h
      exact absurd h (by simp)

/-- Filtering out every entry with a given descriptor leaves nothing for a
search for that descriptor to find. -/
theorem find?_filter_out_fd (l : List (Nat × String)) (fd : Int) :
    (l.filter (fun e => !((e.1 : Int) == fd))).find? (fun e => ((e.1 : Int) == fd))
      = none := by
  rw [List.find?_eq_none]
  intro x hx
  rw [List.mem_filter] at hx
  simpa using hx.2

/-- An operation hitting a descriptor absent from the table answers the
generic `FAILURE` status: the `EBADF` of the underlying call lands in the
catch-all error branch of the READ, WRITE and CLOSE handlers. -/
theorem ops_fail_of_fdLookup_none (t : OSState) (h : Buffer)
    (offset length : Nat) (data : Buffer)
    (hn : fdLookup t (readInt32BE h) = none) :
    SSHService.handleREAD t h offset length = .status SFTP_STATUS.FAILURE ∧
    SSHService.handleWRITE t h offset data = (.status SFTP_STATUS.FAILURE, t) ∧
    SSHService.handleCLOSE t h = (.status SFTP_STATUS.FAILURE, t) := by
  unfold SSHService.handleREAD SSHService.readAtFd osRead
    SSHService.handleWRITE SSHService.writeAtFd osWrite
    SSHService.handleCLOSE SSHService.closeAtFd osClose
  rw [hn]
  simp

/-- C1 (counterexample). The claim says an operation on a closed handle
returns a not-found status; on descriptor 3, open then closed, a READ in
fact returns the generic `FAILURE` status, which is not `NO_SUCH_FILE`. -/
theorem C1_close_then_read_is_FAILURE_not_not_found :
    (SSHService.handleCLOSE { fdTable := [(3, "f")], files := [("f", [104, 105])] }
        (writeInt32BE 3)).1 = .status SFTP_STATUS.OK ∧
    SSHService.handleREAD
        (SSHService.handleCLOSE { fdTable := [(3, "f")], files := [("f", [104, 105])] }
          (writeInt32BE 3)).2
        (writeInt32BE 3) 0 4 = .status SFTP_STATUS.FAILURE ∧
    SFTP_STATUS.FAILURE ≠ SFTP_STATUS.NO_SUCH_FILE := by
  refine ⟨by decide, by decide, by decide⟩

/-- C1 (amended). After a successful CLOSE of a handle, the descriptor is
gone from the table and every subsequent READ, WRITE or CLOSE carrying the
same handle fails — but with the generic `FAILURE` status, not a not-found
status; the same `FAILURE` answer is given for any handle whose descriptor
is absent from the table (never issued by an OPEN). -/
theorem C1_closed_or_unknown_handle_ops_fail (s s' : OSState) (h : Buffer)
    (offset length : Nat) (data : Buffer)
    (hclose : SSHService.handleCLOSE s h = (.status SFTP_STATUS.OK, s')) :
    fdLookup s' (readInt32BE h) = none ∧
    SSHService.handleREAD s' h offset length = .status SFTP_STATUS.FAILURE ∧
    SSHService.handleWRITE s' h offset data = (.status SFTP_STATUS.FAILURE, s') ∧
    SSHService.handleCLOSE s' h = (.status SFTP_STATUS.FAILURE, s') ∧
    (∀ t : OSState, fdLookup t (readInt32BE h) = none →
      SSHService.handleREAD t h offset length = .status SFTP_STATUS.FAILURE ∧
      SSHService.handleWRITE t h offset data = (.status SFTP_STATUS.FAILURE, t) ∧
      SSHService.handleCLOSE t h = (.status SFTP_STATUS.FAILURE, t)) := by
  have hnone : fdLookup s' (readInt32BE h) = none := by
    unfold SSHService.handleCLOSE SSHService.closeAtFd at hclose
    rcases hc : osClose s (readInt32BE h) with e | s1
    · rw [hc] at hclose
      simp [SFTP_STATUS.FAILURE, SFTP_STATUS.OK] at hclose
    · rw [hc] at hclose
      have hs' : s1 = s' := by
        simpa using hclose
      subst hs'
      unfold osClose at hc
      rcases hl : fdLookup s (readInt32BE h) with _ | pth
      · rw [hl] at hc
        simp at hc
      · rw [hl] at hc
        simp only [Except.ok.injEq] at hc
        rw [← hc]
        unfold fdLookup
        rw [find?_filter_out_fd]
  refine ⟨hnone, ?_, ?_, ?_, ?_⟩
  · exact (ops_fail_of_fdLookup_none s' h offset length data hnone).1
  · exact (ops_fail_of_fdLookup_none s' h offset length data hnone).2.1
  · exact (ops_fail_of_fdLookup_none s' h offset length data hnone).2.2
  · intro t ht
    exact ops_fail_of_fdLookup_none t h offset length data ht

/-- C1 witness: descriptor 5 is open, CLOSE succeeds, and the amended
conclusions hold there. -/
theorem C1_closed_or_unknown_handle_ops_fail_witness :
    SSHService.handleCLOSE { fdTable := [(5, "g")], files := [("g", [1, 2, 3])] }
        (writeInt32BE 5)
      = (.status SFTP_STATUS.OK, { files := [("g", [1, 2, 3])] }) ∧
    (fdLookup { files := [("g", [1, 2, 3])] } (readInt32BE (writeInt32BE 5)) = none ∧
      SSHService.handleREAD { files := [("g", [1, 2, 3])] } (writeInt32BE 5) 0 3
        = .status SFTP_STATUS.FAILURE ∧
      SSHService.handleWRITE { files := [("g", [1, 2, 3])] } (writeInt32BE 5) 0 [9]
        = (.status SFTP_STATUS.FAILURE, { files := [("g", [1, 2, 3])] }) ∧
      SSHService.handleCLOSE { files := [("g", [1, 2, 3])] } (writeInt32BE 5)
        = (.status SFTP_STATUS.FAILURE, { files := [("g", [1, 2, 3])] }) ∧
      (∀ t : OSState, fdLookup t (readInt32BE (writeInt32BE 5)) = none →
        SSHService.handleREAD t (writeInt32BE 5) 0 3 = .status SFTP_STATUS.FAILURE ∧
        SSHService.handleWRITE t (writeInt32BE 5) 0 [9]
          = (.status SFTP_STATUS.FAILURE, t) ∧
        SSHService.handleCLOSE t (writeInt32BE 5) = (.status SFTP_STATUS.FAILURE, t))) :=
  ⟨by decide,
    C1_closed_or_unknown_handle_ops_fail
      { fdTable := [(5, "g")], files := [("g", [1, 2, 3])] }
      { files := [("g", [1, 2, 3])] } (writeInt32BE 5) 0 3 [9] (by decide)⟩

/-- C5 (counterexample). A permission error on OPEN does not yield
`PERMISSION_DENIED`: the OPEN handler maps every underlying error —
here an `EACCES` — to `NO_SUCH_FILE`. -/
theorem C5_permission_error_not_distinguished :
    osOpen { noAccess := ["secret.txt"] } "secret.txt"
        (SSHService.fsFlagsOf SFTP_OPEN_MODE.READ) = .error .EACCES ∧
    (SSHService.handleOPEN { noAccess := ["secret.txt"] } "secret.txt"
        SFTP_OPEN_MODE.READ).1 = .status SFTP_STATUS.NO_SUCH_FILE ∧
    SFTP_STATUS.NO_SUCH_FILE ≠ SFTP_STATUS.PERMISSION_DENIED := by
  refine ⟨by decide, by decide, by decide⟩

/-- None of the ten dispatcher handlers ever answers `PERMISSION_DENIED`:
every branch of every handler produces some other output. -/
theorem no_permission_denied :
    (∀ (t : OSState) (r : String) (fl : Nat),
      (SSHService.handleOPEN t r fl).1 ≠ .status SFTP_STATUS.PERMISSION_DENIED) ∧
    (∀ (t : OSState) (r : String),
      SSHService.handleSTAT t r ≠ .status SFTP_STATUS.PERMISSION_DENIED) ∧
    (∀ (t : OSState) (uo go : Option Nat) (r : String),
      (SSHService.handleREADDIR t uo go r).1 ≠ .status SFTP_STATUS.PERMISSION_DENIED) ∧
    (∀ (t : OSState) (r : String),
      (SSHService.handleREMOVE t r).1 ≠ .status SFTP_STATUS.PERMISSION_DENIED) ∧
    (∀ (t : OSState) (r : String),
      (SSHService.handleRMDIR t r).1 ≠ .status SFTP_STATUS.PERMISSION_DENIED) ∧
    (∀ (t : OSState) (r1 r2 : String),
      (SSHService.handleRENAME t r1 r2).1 ≠ .status SFTP_STATUS.PERMISSION_DENIED) ∧
    (∀ (t : OSState) (r : String),
      (SSHService.handleMKDIR t r).1 ≠ .status SFTP_STATUS.PERMISSION_DENIED) ∧
    (∀ (t : OSState) (hb : Buffer) (off len : Nat),
      SSHService.handleREAD t hb off len ≠ .status SFTP_STATUS.PERMISSION_DENIED) ∧
    (∀ (t : OSState) (hb : Buffer) (off : Nat) (d2 : Buffer),
      (SSHService.handleWRITE t hb off d2).1 ≠ .status SFTP_STATUS.PERMISSION_DENIED) ∧
    (∀ (t : OSState) (hb : Buffer),
      (SSHService.handleCLOSE t hb).1 ≠ .status SFTP_STATUS.PERMISSION_DENIED) := by
  refine ⟨?_, ?_, ?_, ?_, ?_, ?_, ?_, ?_, ?_, ?_⟩
  · intro t r fl
    unfold SSHService.handleOPEN
    rcases hr : osOpen t r (SSHService.fsFlagsOf fl) with e | ⟨fd, t1⟩ <;>
      simp [SFTP_STATUS.NO_SUCH_FILE, SFTP_STATUS.PERMISSION_DENIED]
  · intro t r
    unfold SSHService.handleSTAT
    rcases hr : osStat t r with e | st <;>
      simp [SFTP_STATUS.NO_SUCH_FILE, SFTP_STATUS.PERMISSION_DENIED]
  · intro t uo go r
    unfold SSHService.handleREADDIR
    rcases hr : dirLookup t r with _ | files
    · simp [SFTP_STATUS.NO_SUCH_FILE, SFTP_STATUS.PERMISSION_DENIED]
    · by_cases hlen : (files.length == 0) = true <;>
        simp [hlen, SFTP_STATUS.EOF, SFTP_STATUS.PERMISSION_DENIED]
  · intro t r
    unfold SSHService.handleREMOVE
    rcases hr : osUnlink t r with e | t1 <;>
      simp [SFTP_STATUS.NO_SUCH_FILE, SFTP_STATUS.OK, SFTP_STATUS.PERMISSION_DENIED]
  · intro t r
    unfold SSHService.handleRMDIR
    rcases hr : osRmdir t r with e | t1 <;>
      simp [SFTP_STATUS.NO_SUCH_FILE, SFTP_STATUS.OK, SFTP_STATUS.PERMISSION_DENIED]
  · intro t r1 r2
    unfold SSHService.handleRENAME
    rcases hr : osRename t r1 r2 with e | t1 <;>
      simp [SFTP_STATUS.NO_SUCH_FILE, SFTP_STATUS.OK, SFTP_STATUS.PERMISSION_DENIED]
  · intro t r
    unfold SSHService.handleMKDIR
    rcases hr : osMkdir t r with e | t1 <;>
      simp [SFTP_STATUS.FAILURE, SFTP_STATUS.OK, SFTP_STATUS.PERMISSION_DENIED]
  · intro t hb off len
    unfold SSHService.handleREAD SSHService.readAtFd
    rcases hr : osRead t (readInt32BE hb) off len with e | bytes
    · simp [SFTP_STATUS.FAILURE, SFTP_STATUS.PERMISSION_DENIED]
    · by_cases hlen : (bytes.length == 0) = true <;>
        simp [hlen, SFTP_STATUS.EOF, SFTP_STATUS.PERMISSION_DENIED]
  · intro t hb off d2
    unfold SSHService.handleWRITE SSHService.writeAtFd
    rcases hr : osWrite t (readInt32BE hb) off d2 with e | t1 <;>
      simp [SFTP_STATUS.FAILURE, SFTP_STATUS.OK, SFTP_STATUS.PERMISSION_DENIED]
  · intro t hb
    unfold SSHService.handleCLOSE SSHService.closeAtFd
    rcases hr : osClose t (readInt32BE hb) with e | t1 <;>
      simp [SFTP_STATUS.FAILURE, SFTP_STATUS.OK, SFTP_STATUS.PERMISSION_DENIED]

/-- C5 (amended). Each failing operation answers one status chosen per
operation, not per underlying error: OPEN, STAT, READDIR, REMOVE, RMDIR
and RENAME answer `NO_SUCH_FILE` for every underlying error (including
permission errors), while MKDIR, READ, WRITE and CLOSE answer `FAILURE`
for every underlying error; `PERMISSION_DENIED` is never produced by any
handler, so a client cannot distinguish a permission error from a missing
path. -/
theorem C5_per_operation_error_collapse (s : OSState)
    (p pstat dp q rp po pn mp : String) (uidOpt gidOpt : Option Nat)
    (flags offset length : Nat) (h data : Buffer)
    (e1 e2 e3 e4 e5 e6 e7 e8 e9 : FsError)
    (hopen : osOpen s p (SSHService.fsFlagsOf flags) = .error e1)
    (hstat : osStat s pstat = .error e2)
    (hdir : dirLookup s dp = none)
    (hunlink : osUnlink s q = .error e3)
    (hrmdir : osRmdir s rp = .error e4)
    (hrename : osRename s po pn = .error e5)
    (hmkdir : osMkdir s mp = .error e6)
    (hread : osRead s (readInt32BE h) offset length = .error e7)
    (hwrite : osWrite s (readInt32BE h) offset data = .error e8)
    (hclose : osClose s (readInt32BE h) = .error e9) :
    SSHService.handleOPEN s p flags = (.status SFTP_STATUS.NO_SUCH_FILE, s) ∧
    SSHService.handleSTAT s pstat = .status SFTP_STATUS.NO_SUCH_FILE ∧
    SSHService.handleREADDIR s uidOpt gidOpt dp
      = (.status SFTP_STATUS.NO_SUCH_FILE, s) ∧
    SSHService.handleREMOVE s q = (.status SFTP_STATUS.NO_SUCH_FILE, s) ∧
    SSHService.handleRMDIR s rp = (.status SFTP_STATUS.NO_SUCH_FILE, s) ∧
    SSHService.handleRENAME s po pn = (.status SFTP_STATUS.NO_SUCH_FILE, s) ∧
    SSHService.handleMKDIR s mp = (.status SFTP_STATUS.FAILURE, s) ∧
    SSHService.handleREAD s h offset length = .status SFTP_STATUS.FAILURE ∧
    SSHService.handleWRITE s h offset data = (.status SFTP_STATUS.FAILURE, s) ∧
    SSHService.handleCLOSE s h = (.status SFTP_STATUS.FAILURE, s) ∧
    ((∀ (t : OSState) (r : String) (fl : Nat),
      (SSHService.handleOPEN t r fl).1 ≠ .status SFTP_STATUS.PERMISSION_DENIED) ∧
    (∀ (t : OSState) (r : String),
      SSHService.handleSTAT t r ≠ .status SFTP_STATUS.PERMISSION_DENIED) ∧
    (∀ (t : OSState) (uo go : Option Nat) (r : String),
      (SSHService.handleREADDIR t uo go r).1 ≠ .status SFTP_STATUS.PERMISSION_DENIED) ∧
    (∀ (t : OSState) (r : String),
      (SSHService.handleREMOVE t r).1 ≠ .status SFTP_STATUS.PERMISSION_DENIED) ∧
    (∀ (t : OSState) (r : String),
      (SSHService.handleRMDIR t r).1 ≠ .status SFTP_STATUS.PERMISSION_DENIED) ∧
    (∀ (t : OSState) (r1 r2 : String),
      (SSHService.handleRENAME t r1 r2).1 ≠ .status SFTP_STATUS.PERMISSION_DENIED) ∧
    (∀ (t : OSState) (r : String),
      (SSHService.handleMKDIR t r).1 ≠ .status SFTP_STATUS.PERMISSION_DENIED) ∧
    (∀ (t : OSState) (hb : Buffer) (off len : Nat),
      SSHService.handleREAD t hb off len ≠ .status SFTP_STATUS.PERMISSION_DENIED) ∧
    (∀ (t : OSState) (hb : Buffer) (off : Nat) (d2 : Buffer),
      (SSHService.handleWRITE t hb off d2).1 ≠ .status SFTP_STATUS.PERMISSION_DENIED) ∧
    (∀ (t : OSState) (hb : Buffer),
      (SSHService.handleCLOSE t hb).1 ≠ .status SFTP_STATUS.PERMISSION_DENIED)) := by
  refine ⟨?_, ?_, ?_, ?_, ?_, ?_, ?_, ?_, ?_, ?_, no_permission_denied⟩
  · unfold SSHService.handleOPEN
    rw [hopen]
  · unfold SSHService.handleSTAT
    rw [hstat]
  · unfold SSHService.handleREADDIR
    rw [hdir]
  · unfold SSHService.handleREMOVE
    rw [hunlink]
  · unfold SSHService.handleRMDIR
    rw [hrmdir]
  · unfold SSHService.handleRENAME
    rw [hrename]
  · unfold SSHService.handleMKDIR
    rw [hmkdir]
  · unfold SSHService.handleREAD SSHService.readAtFd
    rw [hread]
  · unfold SSHService.handleWRITE SSHService.writeAtFd
    rw [hwrite]
  · unfold SSHService.handleCLOSE SSHService.closeAtFd
    rw [hclose]

/-- C5 witness: a state in which path `p` is permission-denied (failing
OPEN and MKDIR with `EACCES`), paths `sp`, `dd`, `q`, `r`, `o` are
missing (failing STAT, READDIR, REMOVE, RMDIR and RENAME), and descriptor
9 is not open (failing READ, WRITE and CLOSE with `EBADF`); all ten
hypotheses hold there at once. -/
theorem C5_per_operation_error_collapse_witness :
    (osOpen { noAccess := ["p"] } "p" (SSHService.fsFlagsOf 1) = .error .EACCES ∧
      osStat { noAccess := ["p"] } "sp" = .error .ENOENT ∧
      dirLookup { noAccess := ["p"] } "dd" = none ∧
      osUnlink { noAccess := ["p"] } "q" = .error .ENOENT ∧
      osRmdir { noAccess := ["p"] } "r" = .error .ENOENT ∧
      osRename { noAccess := ["p"] } "o" "n" = .error .ENOENT ∧
      osMkdir { noAccess := ["p"] } "p" = .error .EACCES ∧
      osRead { noAccess := ["p"] } (readInt32BE (writeInt32BE 9)) 0 1
        = .error .EBADF ∧
      osWrite { noAccess := ["p"] } (readInt32BE (writeInt32BE 9)) 0 [0]
        = .error .EBADF ∧
      osClose { noAccess := ["p"] } (readInt32BE (writeInt32BE 9)) = .error .EBADF) ∧
    (SSHService.handleOPEN { noAccess := ["p"] } "p" 1
        = (.status SFTP_STATUS.NO_SUCH_FILE, { noAccess := ["p"] }) ∧
      SSHService.handleSTAT { noAccess := ["p"] } "sp"
        = .status SFTP_STATUS.NO_SUCH_FILE ∧
      SSHService.handleREADDIR { noAccess := ["p"] } none none "dd"
        = (.status SFTP_STATUS.NO_SUCH_FILE, { noAccess := ["p"] }) ∧
      SSHService.handleREMOVE { noAccess := ["p"] } "q"
        = (.status SFTP_STATUS.NO_SUCH_FILE, { noAccess := ["p"] }) ∧
      SSHService.handleRMDIR { noAccess := ["p"] } "r"
        = (.status SFTP_STATUS.NO_SUCH_FILE, { noAccess := ["p"] }) ∧
      SSHService.handleRENAME { noAccess := ["p"] } "o" "n"
        = (.status SFTP_STATUS.NO_SUCH_FILE, { noAccess := ["p"] }) ∧
      SSHService.handleMKDIR { noAccess := ["p"] } "p"
        = (.status SFTP_STATUS.FAILURE, { noAccess := ["p"] }) ∧
      SSHService.handleREAD { noAccess := ["p"] } (writeInt32BE 9) 0 1
        = .status SFTP_STATUS.FAILURE ∧
      SSHService.handleWRITE { noAccess := ["p"] } (writeInt32BE 9) 0 [0]
        = (.status SFTP_STATUS.FAILURE, { noAccess := ["p"] }) ∧
      SSHService.handleCLOSE { noAccess := ["p"] } (writeInt32BE 9)
        = (.status SFTP_STATUS.FAILURE, { noAccess := ["p"] }) ∧
      ((∀ (t : OSState) (r : String) (fl : Nat),
        (SSHService.handleOPEN t r fl).1 ≠ .status SFTP_STATUS.PERMISSION_DENIED) ∧
      (∀ (t : OSState) (r : String),
        SSHService.handleSTAT t r ≠ .status SFTP_STATUS.PERMISSION_DENIED) ∧
      (∀ (t : OSState) (uo go : Option Nat) (r : String),
        (SSHService.handleREADDIR t uo go r).1 ≠ .status SFTP_STATUS.PERMISSION_DENIED) ∧
      (∀ (t : OSState) (r : String),
        (SSHService.handleREMOVE t r).1 ≠ .status SFTP_STATUS.PERMISSION_DENIED) ∧
      (∀ (t : OSState) (r : String),
        (SSHService.handleRMDIR t r).1 ≠ .status SFTP_STATUS.PERMISSION_DENIED) ∧
      (∀ (t : OSState) (r1 r2 : String),
        (SSHService.handleRENAME t r1 r2).1 ≠ .status SFTP_STATUS.PERMISSION_DENIED) ∧
      (∀ (t : OSState) (r : String),
        (SSHService.handleMKDIR t r).1 ≠ .status SFTP_STATUS.PERMISSION_DENIED) ∧
      (∀ (t : OSState) (hb : Buffer) (off len : Nat),
        SSHService.handleREAD t hb off len ≠ .status SFTP_STATUS.PERMISSION_DENIED) ∧
      (∀ (t : OSState) (hb : Buffer) (off : Nat) (d2 : Buffer),
        (SSHService.handleWRITE t hb off d2).1 ≠ .status SFTP_STATUS.PERMISSION_DENIED) ∧
      (∀ (t : OSState) (hb : Buffer),
        (SSHService.handleCLOSE t hb).1 ≠ .status SFTP_STATUS.PERMISSION_DENIED))) :=
  ⟨⟨by decide, by decide, by decide, by decide, by decide, by decide, by decide,
      by decide, by decide, by decide⟩,
    C5_per_operation_error_collapse { noAccess := ["p"] } "p" "sp" "dd" "q" "r" "o" "n" "p"
      none none 1 0 1 (writeInt32BE 9) [0]
      .EACCES .ENOENT .ENOENT .ENOENT .ENOENT .EACCES .EBADF .EBADF .EBADF
      (by decide) (by decide) (by decide) (by decide) (by decide) (by decide)
      (by decide) (by decide) (by decide) (by decide)⟩


/-- `readInt32BE` only looks at the first four bytes. -/
theorem readInt32BE_take_four (b : Buffer) :
    readInt32BE (b.take 4) = readInt32BE b := by
  rcases b with _ | ⟨a, _ | ⟨b1, _ | ⟨b2, _ | ⟨b3, t⟩⟩⟩⟩ <;>
    simp [readInt32BE, List.take_succ_cons]

/-- Decoding the encoding of a descriptor below `2^31` gives it back. -/
theorem readInt32BE_writeInt32BE (n : Nat) (hn : n < 2147483648) :
    readInt32BE (writeInt32BE n) = (n : Int) := by
  unfold readInt32BE writeInt32BE
  simp only [List.getD_cons_zero, List.getD_cons_succ]
  rw [if_neg (by omega)]
  have hrec : n / 16777216 % 256 * 16777216 + n / 65536 % 256 * 65536
      + n / 256 % 256 * 256 + n % 256 = n := by omega
  exact_mod_cast hrec

/-- C9. A successful OPEN answers the wire handle that is exactly the
4-byte big-endian encoding of the descriptor the local open returned;
decoding inverts encoding for every descriptor below `2^31`; and the READ,
WRITE and CLOSE handlers act on the descriptor decoded from the first four
bytes of the client-supplied handle (the handle is the raw descriptor
number, not an opaque table index). -/
theorem C9_handle_is_raw_descriptor_encoding (s s' : OSState) (p : String)
    (flags fd : Nat)
    (hopen : osOpen s p (SSHService.fsFlagsOf flags) = .ok (fd, s')) :
    SSHService.handleOPEN s p flags = (.handle (writeInt32BE fd), s') ∧
    (∀ n : Nat, n < 2147483648 → readInt32BE (writeInt32BE n) = (n : Int)) ∧
    (∀ (t : OSState) (hb : Buffer) (offset length : Nat),
      SSHService.handleREAD t hb offset length
        = SSHService.readAtFd t (readInt32BE (hb.take 4)) offset length) ∧
    (∀ (t : OSState) (hb : Buffer) (offset : Nat) (data : Buffer),
      SSHService.handleWRITE t hb offset data
        = SSHService.writeAtFd t (readInt32BE (hb.take 4)) offset data) ∧
    (∀ (t : OSState) (hb : Buffer),
      SSHService.handleCLOSE t hb = SSHService.closeAtFd t (readInt32BE (hb.take 4))) := by
  refine ⟨?_, fun n hn => readInt32BE_writeInt32BE n hn, ?_, ?_, ?_⟩
  · unfold SSHService.handleOPEN
    rw [hopen]
  · intro t hb offset length
    rw [readInt32BE_take_four]
    rfl
  · intro t hb offset data
    rw [readInt32BE_take_four]
    rfl
  · intro t hb
    rw [readInt32BE_take_four]
    rfl

/-- C9 witness: opening the existing file `f` for reading yields descriptor
3 and the wire handle `[0, 0, 0, 3]`. -/
theorem C9_handle_is_raw_descriptor_encoding_witness :
    osOpen { files := [("f", [7])] } "f" (SSHService.fsFlagsOf 1)
      = .ok (3, { fdTable := [(3, "f")], files := [("f", [7])] }) ∧
    (SSHService.handleOPEN { files := [("f", [7])] } "f" 1
      = (.handle (writeInt32BE 3), { fdTable := [(3, "f")], files := [("f", [7])] }) ∧
    (∀ n : Nat, n < 2147483648 → readInt32BE (writeInt32BE n) = (n : Int)) ∧
    (∀ (t : OSState) (hb : Buffer) (offset length : Nat),
      SSHService.handleREAD t hb offset length
        = SSHService.readAtFd t (readInt32BE (hb.take 4)) offset length) ∧
    (∀ (t : OSState) (hb : Buffer) (offset : Nat) (data : Buffer),
      SSHService.handleWRITE t hb offset data
        = SSHService.writeAtFd t (readInt32BE (hb.take 4)) offset data) ∧
    (∀ (t : OSState) (hb : Buffer),
      SSHService.handleCLOSE t hb = SSHService.closeAtFd t (readInt32BE (hb.take 4)))) :=
  ⟨by decide,
    C9_handle_is_raw_descriptor_encoding { files := [("f", [7])] }
      { fdTable := [(3, "f")], files := [("f", [7])] } "f" 1 3 (by decide)⟩

/-- C10. READDIR re-lists the whole directory named by the (decoded) handle
on every call and keeps no per-handle state: the OS state is unchanged, a
repeated call returns the identical response, end-of-file is answered
exactly when the directory exists and is empty, and a non-empty directory
always gets its complete entry set. -/
theorem C10_readdir_stateless_full_relisting (s : OSState)
    (uidOpt gidOpt : Option Nat) (hp : String) :
    (SSHService.handleREADDIR s uidOpt gidOpt hp).2 = s ∧
    SSHService.handleREADDIR (SSHService.handleREADDIR s uidOpt gidOpt hp).2
        uidOpt gidOpt hp
      = SSHService.handleREADDIR s uidOpt gidOpt hp ∧
    ((SSHService.handleREADDIR s uidOpt gidOpt hp).1 = .status SFTP_STATUS.EOF ↔
      dirLookup s hp = some []) ∧
    (∀ files, dirLookup s hp = some files → files ≠ [] →
      (SSHService.handleREADDIR s uidOpt gidOpt hp).1
        = .name (files.map (SSHService.mkDirEntry (uidOpt.getD 0) (gidOpt.getD 0)))) := by
  have hst : (SSHService.handleREADDIR s uidOpt gidOpt hp).2 = s := by
    unfold SSHService.handleREADDIR
    rcases hdl : dirLookup s hp with _ | files
    · rfl
    · by_cases hf : files.length = 0 <;> simp [hf]
  refine ⟨hst, by rw [hst], ?_, ?_⟩
  · unfold SSHService.handleREADDIR
    rcases hdl : dirLookup s hp with _ | files
    · simp [SFTP_STATUS.NO_SUCH_FILE, SFTP_STATUS.EOF]
    · rcases files with _ | ⟨f, fs⟩
      · simp
      · simp [SFTP_STATUS.EOF]
  · intro files hdl hne
    unfold SSHService.handleREADDIR
    rw [hdl]
    have hlen : (files.length == 0) = false := by
      simp [hne]
    simp [hlen]

/-- C10 witness: a two-entry directory `d` is answered in full, identically
on a repeated call, and without end-of-file. -/
theorem C10_readdir_stateless_full_relisting_witness :
    dirLookup { dirs := [("d", [("a", false), ("sub", true)])] } "d"
      = some [("a", false), ("sub", true)] ∧
    [(("a" : String), false), (("sub" : String), true)] ≠ [] ∧
    (SSHService.handleREADDIR { dirs := [("d", [("a", false), ("sub", true)])] }
        (some 1000) none "d").1
      = .name ([("a", false), ("sub", true)].map (SSHService.mkDirEntry 1000 0)) :=
  ⟨by decide, by decide,
    (C10_readdir_stateless_full_relisting
        { dirs := [("d", [("a", false), ("sub", true)])] } (some 1000) none "d").2.2.2
      [("a", false), ("sub", true)] (by decide) (by decide)⟩

/-- Resolution that finds an existing session for the username attaches:
it returns that session's id and leaves the multiplexer state untouched. -/
theorem handleShellSession_attach (st : SSHState) (sid username : String) (now : Nat)
    (sfound : TmuxSession)
    (hfind : (TmuxService.listSessions st.tmux).find? (fun s => s.name == username)
      = some sfound) :
    (SSHService.handleShellSession st sid username now).2 = sfound.id ∧
    (SSHService.handleShellSession st sid username now).1.tmux = st.tmux := by
  unfold SSHService.handleShellSession
  rw [hfind]
  exact ⟨rfl, rfl⟩

/-- After any resolution for a username, the session listing contains a
session owned by that name, found by the owner-name scan, and its id is the
identifier the resolution bound. -/
theorem handleShellSession_registers_owner (st : SSHState) (sid username : String)
    (now : Nat) :
    ((TmuxService.listSessions
        (SSHService.handleShellSession st sid username now).1.tmux).find?
          (fun s => s.name == username)).map TmuxSession.id
      = some (SSHService.handleShellSession st sid username now).2 := by
  unfold SSHService.handleShellSession
  rcases hfind : (TmuxService.listSessions st.tmux).find? (fun s => s.name == username)
    with _ | sfound
  · rw [hfind]
    show Option.map TmuxSession.id
        ((TmuxService.listSessions (TmuxService.createSession st.tmux
            (username ++ "_" ++ toString now)
            { name := some username, group := some "ssh-users",
              layout := some "even-horizontal", persist := true })).find?
          (fun s => s.name == username))
      = some (username ++ "_" ++ toString now)
    simp only [TmuxService.listSessions, TmuxService.createSession,
      TmuxService.enablePersistence, Option.getD_some, if_true]
    rw [find?_append_left_none _ _ _ (by simpa [TmuxService.listSessions] using hfind)]
    simp [List.find?]
  · rw [hfind]
    show Option.map TmuxSession.id
        ((TmuxService.listSessions st.tmux).find? (fun s => s.name == username))
      = some sfound.id
    rw [hfind]
    rfl

/-- C2. Two sequential shell-channel resolutions for the same username with
no intervening kill bind the same multiplexer session identifier: the
second resolution finds, by owner-name match in the session listing, the
session the first one bound, attaches to it, and creates no new session
(the multiplexer state is unchanged by the second resolution). -/
theorem C2_sequential_resolution_idempotent (st : SSHState)
    (sid1 sid2 username : String) (now1 now2 : Nat) :
    (SSHService.handleShellSession
        (SSHService.handleShellSession st sid1 username now1).1 sid2 username now2).2
      = (SSHService.handleShellSession st sid1 username now1).2 ∧
    ((TmuxService.listSessions
        (SSHService.handleShellSession st sid1 username now1).1.tmux).find?
          (fun s => s.name == username)).map TmuxSession.id
      = some (SSHService.handleShellSession st sid1 username now1).2 ∧
    (SSHService.handleShellSession
        (SSHService.handleShellSession st sid1 username now1).1 sid2 username now2).1.tmux
      = (SSHService.handleShellSession st sid1 username now1).1.tmux := by
  have h1 := handleShellSession_registers_owner st sid1 username now1
  rcases hf : (TmuxService.listSessions
      (SSHService.handleShellSession st sid1 username now1).1.tmux).find?
        (fun s => s.name == username) with _ | sfound
  · rw [hf] at h1
    simp at h1
  · rw [hf] at h1
    simp at h1
    have h2 := handleShellSession_attach
      (SSHService.handleShellSession st sid1 username now1).1 sid2 username now2 sfound hf
    refine ⟨?_, ?_, h2.2⟩
    · rw [h2.1]
      exact h1
    · rw [hf]
      simp [h1]

/-- C6. On transport-channel close of a tmux-backed (persistent) session,
the service first saves the session's state and then kills only the local
relay pty: the action trace is exactly save-then-kill-local, the backing
multiplexer session list is untouched (the save merely records the id as
saved), and the stream-close handler never destroys a backing session, so
only a non-persistent session could have its backing session terminated on
channel close. -/
theorem C6_close_saves_then_detaches (st : SSHState) (sid tid k : String)
    (sd : SessionData)
    (hfind : st.sessions.find? (fun e => e.1 == sid) = some (k, sd))
    (hp : sd.isTmux = true) :
    (SSHService.onStreamClose st sid tid).2
      = [SSHService.CloseAction.save tid, SSHService.CloseAction.killPty sd.shellPid] ∧
    (SSHService.onStreamClose st sid tid).1.tmux.sessions = st.tmux.sessions ∧
    (SSHService.onStreamClose st sid tid).1.tmux.saved = st.tmux.saved ++ [tid] ∧
    sd.shellPid ∉ (SSHService.onStreamClose st sid tid).1.ptys ∧
    (∀ (st2 : SSHState) (sid2 tid2 x : String),
      SSHService.CloseAction.killBacking x ∉ (SSHService.onStreamClose st2 sid2 tid2).2) := by
  have hgen : ∀ (st2 : SSHState) (sid2 tid2 x : String),
      SSHService.CloseAction.killBacking x ∉ (SSHService.onStreamClose st2 sid2 tid2).2 := by
    intro st2 sid2 tid2 x
    unfold SSHService.onStreamClose
    rcases hf2 : st2.sessions.find? (fun e => e.1 == sid2) with _ | e
    · simp [hf2]
    · rcases e with ⟨k2, sd2⟩
      by_cases ht : sd2.isTmux <;> simp [hf2, ht]
  unfold SSHService.onStreamClose
  rw [hfind]
  refine ⟨?_, ?_, ?_, ?_, hgen⟩ <;>
    simp [hp, TmuxService.enablePersistence, List.mem_filter]

/-- C6 witness: one persistent session keyed `s1` with relay pid 7. -/
theorem C6_close_saves_then_detaches_witness :
    ({ sessions := [("s1", { shellPid := 7, isTmux := true, username := "u" })],
        tmux := { sessions := [{ id := "u_1", name := "u" }] },
        ptys := [7] } : SSHState).sessions.find? (fun e => e.1 == "s1")
      = some ("s1", { shellPid := 7, isTmux := true, username := "u" }) ∧
    ((true : Bool) = true) ∧
    (SSHService.onStreamClose
        { sessions := [("s1", { shellPid := 7, isTmux := true, username := "u" })],
          tmux := { sessions := [{ id := "u_1", name := "u" }] },
          ptys := [7] } "s1" "u_1").2
      = [SSHService.CloseAction.save "u_1", SSHService.CloseAction.killPty 7] :=
  ⟨by decide, rfl,
    (C6_close_saves_then_detaches
      { sessions := [("s1", { shellPid := 7, isTmux := true, username := "u" })],
        tmux := { sessions := [{ id := "u_1", name := "u" }] },
        ptys := [7] } "s1" "u_1" "s1"
      { shellPid := 7, isTmux := true, username := "u" } (by decide) rfl).1⟩

/-- C7 (code bug).  `stop()` runs `killSession` on exactly the tmux-backed
(persistence-enabled) sessions.  Reachable run: username `session`
connecting at timestamp 1000 gets connection key `session_1000` and backing
multiplexer session `session_1000`; an orderly stop then destroys that
persistent backing session (its saved state notwithstanding).  For an
ordinary username the kill targets the connection key instead of the
multiplexer session id, so shutdown aborts with the external error —
in neither case does a persistent backing session survive an orderly
shutdown as the claim requires. -/
theorem C7_stop_destroys_persistent_backing :
    (SSHService.handleShellSession {} "session_1000" "session" 1000).1.tmux.sessions
      = [{ id := "session_1000", name := "session" }] ∧
    (SSHService.handleShellSession {} "session_1000" "session" 1000).1.tmux.saved
      = ["session_1000"] ∧
    ((SSHService.handleShellSession {} "session_1000" "session" 1000).1.sessions.all
        (fun e => e.2.isTmux)) = true ∧
    SSHService.stop (SSHService.handleShellSession {} "session_1000" "session" 1000).1
      = .ok { sessions := [], tmux := { sessions := [], saved := ["session_1000"] },
              ptys := [], nextPid := 2 } ∧
    SSHService.stop (SSHService.handleShellSession {} "session_50" "alice" 60).1
      = .error "tmux kill-session failed: no such session" := by
  refine ⟨by decide, by decide, by decide, by decide, by decide⟩

/-- C3 (counterexample). Acceptance is substring containment, not entry
equality: with authorized-keys content `keyAAAA`, the presented key `keyA`
is accepted although it is byte-for-byte equal to no entry of the list. -/
theorem C3_substring_key_accepted :
    SSHService.handlePublicKeyAuth (some "keyAAAA") (some "keyA") = .accept ∧
    "keyA" ∉ authorizedEntries "keyAAAA" := by
  refine ⟨by decide, by decide⟩

/-- C3 (amended). Public-key authentication accepts a presented key iff its
encoded form is non-empty and occurs as a substring of the authorized-keys
file content (`keys.includes(pubKey)`); an unreadable keys file or an
absent key datum is rejected.  Verbatim entry equality is sufficient but
not necessary for acceptance. -/
theorem C3_accept_iff_nonempty_substring (keys k : String) :
    (SSHService.handlePublicKeyAuth (some keys) (some k) = .accept
      ↔ (k ≠ "" ∧ strIncludes keys k = true)) ∧
    SSHService.handlePublicKeyAuth none (some k) = .reject none ∧
    SSHService.handlePublicKeyAuth (some keys) none = .reject none := by
  refine ⟨?_, rfl, rfl⟩
  unfold SSHService.handlePublicKeyAuth
  show (if (k != "" && strIncludes keys k) = true then AuthResult.accept
      else AuthResult.reject none) = AuthResult.accept
    ↔ k ≠ "" ∧ strIncludes keys k = true
  by_cases hcond : (k != "" && strIncludes keys k) = true
  · rw [if_pos hcond]
    rw [Bool.and_eq_true, bne_iff_ne] at hcond
    simp [hcond]
  · rw [if_neg hcond]
    rw [Bool.and_eq_true, bne_iff_ne] at hcond
    simp [hcond]

/-- C4 (counterexample). A wrong password is rejected by a bare
`ctx.reject()` carrying no method list — not by a rejection offering
`{password, publickey}` again. -/
theorem C4_wrong_password_bare_reject :
    SSHService.handleAuth "password" none none (some "wrong") = .reject none ∧
    AuthResult.reject none ≠ AuthResult.reject (some ["password", "publickey"]) := by
  refine ⟨by decide, by decide⟩

/-- C4 (amended). A request for any method other than `password` and
`publickey` is rejected with the list of the two supported methods; an
incorrect password is rejected with a bare rejection carrying no explicit
method list (leaving any re-offer to the transport library's default). -/
theorem C4_unsupported_method_rejected_with_list (method : String)
    (keysFile : Option String) (pubKey : Option String) (pw : String)
    (hm1 : method ≠ "publickey") (hm2 : method ≠ "password")
    (hpw : pw ≠ "your_secure_password") :
    SSHService.handleAuth method keysFile pubKey (some pw)
      = .reject (some ["password", "publickey"]) ∧
    SSHService.handleAuth "password" keysFile pubKey (some pw) = .reject none := by
  have hb1 : (method == "publickey") = false := by
    simp [hm1]
  have hb2 : (method == "password") = false := by
    simp [hm2]
  have hb3 : (pw == "your_secure_password") = false := by
    simp [hpw]
  unfold SSHService.handleAuth SSHService.handlePasswordAuth
  rw [hb1, hb2]
  simp [hb3]

/-- C4 witness: the `keyboard-interactive` method and the wrong password
`wrong`. -/
theorem C4_unsupported_method_rejected_with_list_witness :
    ("keyboard-interactive" ≠ ("publickey" : String) ∧
      "keyboard-interactive" ≠ ("password" : String) ∧
      "wrong" ≠ ("your_secure_password" : String)) ∧
    (SSHService.handleAuth "keyboard-interactive" none none (some "wrong")
      = .reject (some ["password", "publickey"]) ∧
     SSHService.handleAuth "password" none none (some "wrong") = .reject none) :=
  ⟨⟨by decide, by decide, by decide⟩,
    C4_unsupported_method_rejected_with_list "keyboard-interactive" none none "wrong"
      (by decide) (by decide) (by decide)⟩

/-- When every attempt fails, `attemptConnect` rejects with the final
error after exactly `attemptsLeft + 1` attempts. -/
theorem attemptConnect_all_fail (net : Nat → Bool) (hfail : ∀ i, net i = false) :
    ∀ attemptsLeft idx,
      ATCClient.attemptConnect net attemptsLeft idx
        = .error "Failed to connect to ATC server after multiple attempts" ∧
      ATCClient.connectAttemptCount net attemptsLeft idx = attemptsLeft + 1 := by
  intro attemptsLeft
  induction attemptsLeft with
  | zero =>
    intro idx
    unfold ATCClient.attemptConnect ATCClient.connectAttemptCount
    simp [hfail idx]
  | succ n ih =>
    intro idx
    unfold ATCClient.attemptConnect ATCClient.connectAttemptCount
    simp only [hfail idx, Bool.false_eq_true, if_false]
    refine ⟨(ih (idx + 1)).1, ?_⟩
    rw [(ih (idx + 1)).2]
    omega

/-- C8. When every relay connection attempt fails, `connect` performs
exactly `retries + 1` attempts (bounded), waits the fixed delay between
consecutive attempts (`delay * retries` in total), and rejects; `start`
nevertheless succeeds, merely with the relay flagged down; shell-channel
resolution is entirely independent of the relay flag; and with the relay
down the pty output still reaches the transport stream unchanged while
relay delivery is simply absent. -/
theorem C8_relay_retries_bounded_then_degraded (retries delay : Nat)
    (net : Nat → Bool) (hfail : ∀ i, net i = false) :
    ATCClient.connect retries net
      = .error "Failed to connect to ATC server after multiple attempts" ∧
    ATCClient.connectAttemptCount net retries 0 = retries + 1 ∧
    ATCClient.connectTotalDelay net delay retries = delay * retries ∧
    SSHService.start true net
      = .ok { sessions := [], tmux := {}, ptys := [], nextPid := 1,
              atcConnected := false } ∧
    (∀ (st : SSHState) (sid u : String) (now : Nat),
      (SSHService.handleShellSession { st with atcConnected := false } sid u now).2
        = (SSHService.handleShellSession st sid u now).2 ∧
      (SSHService.handleShellSession { st with atcConnected := false } sid u now).1.tmux
        = (SSHService.handleShellSession st sid u now).1.tmux ∧
      (SSHService.handleShellSession { st with atcConnected := false } sid u now).1.sessions
        = (SSHService.handleShellSession st sid u now).1.sessions ∧
      (SSHService.handleShellSession { st with atcConnected := false } sid u now).1.ptys
        = (SSHService.handleShellSession st sid u now).1.ptys) ∧
    (∀ sid tid u d, SSHService.onShellData false sid tid u d = ([d], []) ∧
      (SSHService.onShellData false sid tid u d).1
        = (SSHService.onShellData true sid tid u d).1) := by
  have h := attemptConnect_all_fail net hfail
  refine ⟨(h retries 0).1, (h retries 0).2, ?_, ?_, ?_, ?_⟩
  · unfold ATCClient.connectTotalDelay
    rw [(h retries 0).2]
    simp
  · unfold SSHService.start ATCClient.connect
    rw [(h 5 0).1]
    rfl
  · intro st sid u now
    unfold SSHService.handleShellSession
    rcases hfind : (TmuxService.listSessions st.tmux).find? (fun s => s.name == u)
      with _ | sfound <;>
      refine ⟨?_, ?_, ?_, ?_⟩ <;> simp [hfind]
  · intro sid tid u d
    exact ⟨rfl, rfl⟩

/-- C8 witness: the everywhere-failing network with the source's default
retry count 5 and delay 2000ms. -/
theorem C8_relay_retries_bounded_then_degraded_witness :
    (∀ i : Nat, (fun _ : Nat => false) i = false) ∧
    (ATCClient.connect 5 (fun _ => false)
      = .error "Failed to connect to ATC server after multiple attempts" ∧
    ATCClient.connectAttemptCount (fun _ => false) 5 0 = 5 + 1 ∧
    ATCClient.connectTotalDelay (fun _ => false) 2000 5 = 2000 * 5 ∧
    SSHService.start true (fun _ => false)
      = .ok { sessions := [], tmux := {}, ptys := [], nextPid := 1,
              atcConnected := false } ∧
    (∀ (st : SSHState) (sid u : String) (now : Nat),
      (SSHService.handleShellSession { st with atcConnected := false } sid u now).2
        = (SSHService.handleShellSession st sid u now).2 ∧
      (SSHService.handleShellSession { st with atcConnected := false } sid u now).1.tmux
        = (SSHService.handleShellSession st sid u now).1.tmux ∧
      (SSHService.handleShellSession { st with atcConnected := false } sid u now).1.sessions
        = (SSHService.handleShellSession st sid u now).1.sessions ∧
      (SSHService.handleShellSession { st with atcConnected := false } sid u now).1.ptys
        = (SSHService.handleShellSession st sid u now).1.ptys) ∧
    (∀ sid tid u d, SSHService.onShellData false sid tid u d = ([d], []) ∧
      (SSHService.onShellData false sid tid u d).1
        = (SSHService.onShellData true sid tid u d).1)) :=
  ⟨fun _ => rfl,
    C8_relay_retries_bounded_then_degraded 5 2000 (fun _ => false) (fun _ => rfl)⟩
